import Mathlib

/-!
Verification of the logistics-watcher webhook monitor.

The repository contains three near-duplicate variants of the service:

* `src/unnamed/part_001` — the "Enhanced" AI-assisted variant (namespace
  `Enhanced` below): rule cascade `detectIssueBasic`, stale-update tracker
  `checkForStaleUpdate`, duplicate suppressor `isDuplicateAlert`, location
  resolution (`getLocationFromColumns`, `extractLocationFromUpdate`, and the
  webhook priority chain `resolveLocation`), and `analyzeWithGemini`.
* `src/index.js` — the multi-board variant (namespace `MultiBoard`):
  `checkAmbiguousStatus`, `analyzeIssue`, `extractTrackingNumber`,
  `normalizeCustomerTracking`.
* `src/unnamed/part_002` — a variant (namespace `Variant2`) whose
  `AMBIGUOUS_STATUSES` table additionally holds `"on hold"` with a 6 hour
  timeout, with the same `checkAmbiguousStatus` body as `src/index.js`.

JavaScript strings are modelled as Lean `String`s (substring checks run over
`List Char`); JavaScript timestamps (`Date.now()`, milliseconds) are `Int`;
the process-wide `Map`s become explicit state values threaded through the
functions, so each JS mutator becomes a pure function
`state → input → state × output`.
-/

/-- Lower-case a string character-wise, modelling JS `toLowerCase` on the
ASCII texts the service handles. -/
def lowerChars (s : String) : List Char := s.toList.map Char.toLower

/-- Substring occurrence test: JS `String.prototype.includes` and the
`regex.test` of an alternation of plain literal phrases. -/
def containsSeq (phrase : List Char) : List Char → Bool
  | [] => phrase.isPrefixOf []
  | c :: rest => phrase.isPrefixOf (c :: rest) || containsSeq phrase rest

/-- `text` contains `phrase` as a plain substring. -/
def containsPhrase (text : List Char) (phrase : String) : Bool :=
  containsSeq phrase.toList text

/-- Some phrase of the list occurs in `text`; models a `/(p1|p2|...)/i` test
applied to already lower-cased text. -/
def anyPhrase (phrases : List String) (text : List Char) : Bool :=
  phrases.any (fun p => containsPhrase text p)

/-- JS regex word character class `\w` = `[A-Za-z0-9_]`. -/
def isWordChar (c : Char) : Bool := c.isAlphanum || c == '_'

/-- `phrase` occurs at the head of `text` with a word boundary after it
(next character absent or not a word character). -/
def wordMatchAtHead (phrase : List Char) (text : List Char) : Bool :=
  phrase.isPrefixOf text &&
    (match text.drop phrase.length with
     | [] => true
     | c :: _ => !isWordChar c)

/-- Scan for a word-bounded occurrence, carrying whether the previous
character was a word character. All phrases used with this helper begin and
end with a letter, for which `\b` demands exactly the neighbour checks done
here. -/
def containsWordAux (phrase : List Char) (prevIsWord : Bool) : List Char → Bool
  | [] => false
  | c :: rest =>
    ((!prevIsWord) && wordMatchAtHead phrase (c :: rest)) ||
      containsWordAux phrase (isWordChar c) rest

/-- `/\b(phrase)\b/` test for a single literal phrase. -/
def containsWordBd (phrase : List Char) (text : List Char) : Bool :=
  containsWordAux phrase false text

/-- Existence test for `/(a1|a2|...).*(b1|b2|...)/`: some `a`-occurrence is
followed (anywhere later) by some `b`-occurrence. -/
def seqPatternTest (as bs : List String) : List Char → Bool
  | [] => false
  | c :: rest =>
    as.any (fun a =>
      a.toList.isPrefixOf (c :: rest) &&
        bs.any (fun b => containsSeq b.toList ((c :: rest).drop a.toList.length))) ||
      seqPatternTest as bs rest

/-- Classifier output object. `extractedLocation` and `route` stay `none` on
objects built by the rule cascade (the JS objects carry no such keys there);
the Gemini conversion fills them in. -/
structure Issue where
  type : String
  severity : String
  reason : String
  carrier : String
  extractedLocation : Option String := none
  route : Option String := none
deriving DecidableEq

namespace Enhanced

/-- Carrier sniffing of `src/unnamed/part_001` (`detectCarrier`). -/
def detectCarrier (updateText : String) : String :=
  if updateText = "" then "unknown"
  else
    let text := lowerChars updateText
    if containsPhrase text "ups" || containsPhrase text "united parcel" then "UPS"
    else if containsPhrase text "dhl" then "DHL"
    else if containsPhrase text "fedex" || containsPhrase text "federal express" then "FedEx"
    else "unknown"

/-- `ISSUE_PATTERNS.delivered`: `/\b(delivered|shipment delivered|delivery
complete|left with|signed for by)\b/i`. -/
def deliveredPhrases : List String :=
  ["delivered", "shipment delivered", "delivery complete", "left with", "signed for by"]

/-- Word-bounded test of the delivered/terminal-success pattern on the
lower-cased text. -/
def testDelivered (text : List Char) : Bool :=
  deliveredPhrases.any (fun p => containsWordBd p.toList text)

/-- `ISSUE_PATTERNS.upsNormalIndia`. -/
def upsNormalIndia : List String :=
  ["warehouse scan", "facility scan", "package received", "origin scan",
   "departure scan", "arrived at ups facility", "departed ups facility",
   "in transit", "export scan", "import scan", "cleared customs",
   "customs clearance complete", "out for delivery"]

/-- `ISSUE_PATTERNS.dhlNormalChina`. -/
def dhlNormalChina : List String :=
  ["shipment information received", "collected", "arrived at dhl facility",
   "departed from dhl facility", "processed at", "forwarded to",
   "arrived at destination", "with delivery courier", "en route to delivery",
   "shipment on hold for delivery", "delivery courier"]

/-- `ISSUE_PATTERNS.fedexNormalChina`. -/
def fedexNormalChina : List String :=
  ["shipment information sent", "picked up", "arrived at fedex location",
   "departed fedex location", "in transit", "customs status updated",
   "international shipment release", "on fedex vehicle", "out for delivery"]

/-- `ISSUE_PATTERNS.upsCustomsIndia`. -/
def upsCustomsIndia : List String :=
  ["held by customs", "customs delay", "customs clearance delay",
   "awaiting customs clearance", "held for customs inspection",
   "import duties required", "customs documentation required",
   "held pending customs"]

/-- `ISSUE_PATTERNS.upsCustomsResolvedIndia`. -/
def upsCustomsResolvedIndia : List String :=
  ["customs clearance complete", "released by customs", "import scan complete",
   "customs cleared", "duties paid"]

/-- `ISSUE_PATTERNS.dhlCustomsChina`. -/
def dhlCustomsChina : List String :=
  ["clearance processing", "customs clearance", "held for customs clearance",
   "clearance event", "customs status updated - held",
   "awaiting customs clearance", "import customs clearance", "customs delay",
   "document required", "duty payment required", "kyc", "know your customer"]

/-- `ISSUE_PATTERNS.dhlCustomsResolvedChina`. -/
def dhlCustomsResolvedChina : List String :=
  ["clearance processing complete", "clearance complete",
   "customs clearance complete", "released by customs",
   "import customs clearance complete", "customs status updated - cleared"]

/-- `ISSUE_PATTERNS.fedexCustomsChina`. -/
def fedexCustomsChina : List String :=
  ["customs status updated", "held by customs", "clearance delay",
   "international shipment - customs delay", "awaiting clearance",
   "customs clearance in progress", "broker notified", "duty/tax required"]

/-- `ISSUE_PATTERNS.fedexCustomsResolvedChina`. -/
def fedexCustomsResolvedChina : List String :=
  ["international shipment release", "customs clearance complete",
   "released by customs", "cleared customs"]

/-- `ISSUE_PATTERNS.deliveryFailed`. -/
def deliveryFailed : List String :=
  ["delivery attempted", "delivery exception", "recipient unavailable",
   "address incorrect", "consignee unavailable", "no one available",
   "incorrect address", "access denied", "refused", "undeliverable",
   "return to sender", "held for pickup", "delivery not attempted",
   "customer not available", "premises closed"]

/-- `ISSUE_PATTERNS.transitIssues`. -/
def transitIssues : List String :=
  ["flight delay", "aircraft delay", "weather delay", "operational delay",
   "mechanical delay", "service disruption", "network disruption",
   "shipment delay", "transportation delay"]

/-- `ISSUE_PATTERNS.hubIssues`, first alternation group. -/
def hubIssueHeads : List String :=
  ["held at", "processing delay at", "delayed at", "exception at"]

/-- `ISSUE_PATTERNS.hubIssues`, second alternation group. -/
def hubIssueNames : List String :=
  ["heathrow", "gatwick", "stansted", "east midlands", "cologne", "leipzig",
   "paris", "amsterdam", "madrid"]

/-- `ISSUE_PATTERNS.damageOrLoss`. -/
def damageOrLoss : List String :=
  ["damaged", "lost", "missing", "investigation", "claim", "package contents",
   "integrity", "security", "theft", "misrouted", "cannot locate"]

/-- `ISSUE_PATTERNS.ukEuDelivery`, first alternation group. -/
def ukEuCarriers : List String :=
  ["royal mail", "parcelforce", "dpd", "yodel", "hermes", "evri",
   "local courier", "final mile", "domestic delivery partner"]

/-- `ISSUE_PATTERNS.ukEuDelivery`, second alternation group. -/
def ukEuDelayWords : List String := ["delay", "exception", "failed", "attempted"]

/-- `ISSUE_PATTERNS.brexitEu`. -/
def brexitEu : List String :=
  ["brexit", "eu customs", "european union", "vat", "tariff", "commodity code",
   "eori", "export declaration", "import declaration", "c88", "sad",
   "single administrative document"]

/-- `detectIssueBasic` of `src/unnamed/part_001` lines 358-469: the ordered
rule cascade. Step numbering follows the source comments; the delivered
check is step 1, evaluated before every other rule. -/
def detectIssueBasic (updateText : String) : Option Issue :=
  if updateText = "" then none
  else
    let text := lowerChars updateText
    let carrier := detectCarrier (String.mk text)
    if testDelivered text then none
    else if (carrier = "UPS" && anyPhrase upsNormalIndia text) ||
        (carrier = "DHL" && anyPhrase dhlNormalChina text) ||
        (carrier = "FedEx" && anyPhrase fedexNormalChina text) then none
    else if (carrier = "UPS" && anyPhrase upsCustomsResolvedIndia text) ||
        (carrier = "DHL" && anyPhrase dhlCustomsResolvedChina text) ||
        (carrier = "FedEx" && anyPhrase fedexCustomsResolvedChina text) then none
    else if (carrier = "UPS" && anyPhrase upsCustomsIndia text) ||
        (carrier = "DHL" && anyPhrase dhlCustomsChina text) ||
        (carrier = "FedEx" && anyPhrase fedexCustomsChina text) then
      some { type := "held in customs", severity := "high",
             reason := carrier ++ " customs clearance issue detected",
             carrier := carrier }
    else if anyPhrase deliveryFailed text then
      some { type := "experiencing delivery failure", severity := "high",
             reason := "Failed delivery attempt", carrier := carrier }
    else if seqPatternTest ukEuCarriers ukEuDelayWords text then
      some { type := "experiencing final mile delivery issue", severity := "high",
             reason := "UK/EU domestic delivery partner issue", carrier := carrier }
    else if seqPatternTest hubIssueHeads hubIssueNames text then
      some { type := "experiencing processing delay at hub", severity := "medium",
             reason := "Delay at major processing hub", carrier := carrier }
    else if anyPhrase transitIssues text then
      some { type := "experiencing transit delay", severity := "medium",
             reason := "International transit delay", carrier := carrier }
    else if anyPhrase damageOrLoss text then
      some { type := "experiencing damage or loss issue", severity := "high",
             reason := "Potential damage or loss detected", carrier := carrier }
    else if anyPhrase brexitEu text then
      some { type := "experiencing EU customs complexity", severity := "medium",
             reason := "Brexit/EU customs documentation issue", carrier := carrier }
    else none

end Enhanced

namespace MultiBoard

/-- Carrier sniffing of `src/index.js` (`detectCarrier`). -/
def detectCarrier (updateText : String) : String :=
  if updateText = "" then "unknown"
  else
    let text := lowerChars updateText
    if containsPhrase text "ups" then "UPS"
    else if containsPhrase text "dhl" then "DHL"
    else if containsPhrase text "fedex" then "FedEx"
    else "unknown"

/-- `analyzeIssue` of `src/index.js` lines 685-710: delivered first, then an
immediate customs rule, then an immediate delivery-failure rule. -/
def analyzeIssue (updateText : String) : Option Issue :=
  let text := lowerChars updateText
  let carrier := detectCarrier updateText
  if containsPhrase text "delivered" then none
  else if containsPhrase text "held by customs" || containsPhrase text "hold in customs" ||
      containsPhrase text "document required" || containsPhrase text "on hold" then
    some { type := "held in customs", severity := "high",
           reason := "Customs issue detected", carrier := carrier }
  else if containsPhrase text "delivery attempted" ||
      containsPhrase text "recipient unavailable" ||
      containsPhrase text "premises closed" then
    some { type := "experiencing delivery failure", severity := "high",
           reason := "Failed delivery attempt", carrier := carrier }
  else none

end MultiBoard

/-- JS `Math.round(ms / (1000 * 60 * 60))`: round half toward positive
infinity, i.e. `⌊ms / 3600000 + 1/2⌋`, computed over the integers. -/
def roundHours (ms : Int) : Int := Int.fdiv (2 * ms + 3600000) 7200000

namespace Enhanced

/-- Per-entity entry of the `updateHistory` map. -/
structure UpdateHistoryRecord where
  lastUpdateText : String
  firstSeenAt : Int
  lastSeenAt : Int
  updateCount : Int
deriving DecidableEq

/-- Output object of `checkForStaleUpdate` when the threshold is exceeded. -/
structure StaleIssue where
  type : String
  severity : String
  reason : String
  isStaleUpdate : Bool
  hoursStale : Int
deriving DecidableEq

/-- The 36-hour stale threshold in milliseconds (`staleThresholdMs`). -/
def staleThresholdMs : Int := 36 * 60 * 60 * 1000

/-- `checkForStaleUpdate` of `src/unnamed/part_001` lines 47-99, with the
`updateHistory` map entry for the item made explicit (the JS `lastUpdateDate`
parameter is unused in the body and dropped). Returns the new entry and the
emitted issue, if any. On the unchanged-text branch the JS code mutates the
record (`lastSeenAt`, `updateCount`) before the threshold test and does not
touch `firstSeenAt`, so a past-threshold call emits without resetting. -/
def checkForStaleUpdate (state : Option UpdateHistoryRecord) (now : Int)
    (updateText : String) : Option UpdateHistoryRecord × Option StaleIssue :=
  match state with
  | none =>
    (some { lastUpdateText := updateText, firstSeenAt := now, lastSeenAt := now,
            updateCount := 1 }, none)
  | some history =>
    if history.lastUpdateText = updateText then
      let timeSinceFirstSeen := now - history.firstSeenAt
      let history2 := { history with lastSeenAt := now, updateCount := history.updateCount + 1 }
      if staleThresholdMs < timeSinceFirstSeen then
        (some history2,
         some { type := "showing stale tracking information", severity := "medium",
                reason := "Same update \"" ++ updateText ++ "\" for " ++
                  toString (roundHours timeSinceFirstSeen) ++ " hours",
                isStaleUpdate := true,
                hoursStale := roundHours timeSinceFirstSeen })
      else (some history2, none)
    else
      (some { lastUpdateText := updateText, firstSeenAt := now, lastSeenAt := now,
              updateCount := 1 }, none)

/-- Alert key `itemId-updateText-issueType` of `isDuplicateAlert`. -/
def mkAlertKey (itemId updateText issueType : String) : String :=
  itemId ++ "-" ++ updateText ++ "-" ++ issueType

/-- The 5-minute suppression window in milliseconds. -/
def suppressionWindowMs : Int := 5 * 60 * 1000

/-- `isDuplicateAlert` of `src/unnamed/part_001` lines 101-119, with the
`recentAlerts` map as an explicit association list in insertion order.
Entries older than five minutes are lazily evicted, then a present key
suppresses (`true`) and an absent key is recorded at `now` (`false`). -/
def isDuplicateAlert (recentAlerts : List (String × Int)) (now : Int)
    (alertKey : String) : List (String × Int) × Bool :=
  let fiveMinutesAgo := now - suppressionWindowMs
  let kept := recentAlerts.filter (fun kv => !(decide (kv.2 < fiveMinutesAgo)))
  if kept.any (fun kv => kv.1 == alertKey) then (kept, true)
  else (kept ++ [(alertKey, now)], false)

end Enhanced

/-- Per-entity entry of the `ambiguousStatusHistory` map. -/
structure AmbiguousStatusRecord where
  status : String
  updateText : String
  firstSeenAt : Int
  timeoutHours : Nat
deriving DecidableEq

/-- Output object of `checkAmbiguousStatus` when a timeout fires. -/
structure AmbIssue where
  type : String
  severity : String
  reason : String
  isAmbiguousTimeout : Bool
  hoursStuck : Int
deriving DecidableEq

/-- First table phrase contained in the lower-cased text, with its configured
timeout; models the `for (const [status, config] of
Object.entries(AMBIGUOUS_STATUSES))` scan that `break`s on the first hit
(JS object iteration follows insertion order for these string keys). -/
def findAmbiguousIn (table : List (String × Nat)) (lowerText : List Char) :
    Option (String × Nat) :=
  table.find? (fun p => containsSeq p.1.toList lowerText)

/-- Shared body of `checkAmbiguousStatus` (`src/index.js` lines 164-224 and
`src/unnamed/part_002` lines 90-150, identical up to the statuses table):
the `ambiguousStatusHistory` entry for the item is the explicit state.
Note that the timeout compared against elapsed time is the one of the phrase
just matched in the current text, not the one stored in the record. -/
def checkAmbiguousWith (table : List (String × Nat))
    (state : Option AmbiguousStatusRecord) (now : Int) (text : String) :
    Option AmbiguousStatusRecord × Option AmbIssue :=
  let lowerText := lowerChars text
  match findAmbiguousIn table lowerText with
  | none => (none, none)
  | some (ambiguousStatus, timeoutHours) =>
    match state with
    | none =>
      (some { status := ambiguousStatus, updateText := text, firstSeenAt := now,
              timeoutHours := timeoutHours }, none)
    | some history =>
      if !(containsSeq history.status.toList lowerText) then (none, none)
      else
        let timeSinceFirstSeen := now - history.firstSeenAt
        if (timeoutHours : Int) * 60 * 60 * 1000 ≤ timeSinceFirstSeen then
          (none,
           some { type := "experiencing delayed customs processing",
                  severity := "high",
                  reason := "Status \"" ++ ambiguousStatus ++ "\" persisted for " ++
                    toString (roundHours timeSinceFirstSeen) ++ " hours",
                  isAmbiguousTimeout := true,
                  hoursStuck := roundHours timeSinceFirstSeen })
        else (some history, none)

namespace MultiBoard

/-- `AMBIGUOUS_STATUSES` of `src/index.js` lines 135-141 (no "on hold"). -/
def AMBIGUOUS_STATUSES : List (String × Nat) :=
  [("clearance event", 18), ("customs clearance", 18), ("processing", 24),
   ("exception", 12), ("clearance processing", 18)]

/-- `checkAmbiguousStatus` of `src/index.js` lines 164-224. The update text
is optional: the JS code guards with `(updateText || "")`, so `null` and
`undefined` behave as the empty string. -/
def checkAmbiguousStatus (state : Option AmbiguousStatusRecord) (now : Int)
    (updateText : Option String) :
    Option AmbiguousStatusRecord × Option AmbIssue :=
  checkAmbiguousWith AMBIGUOUS_STATUSES state now (updateText.getD "")

end MultiBoard

namespace Variant2

/-- `AMBIGUOUS_STATUSES` of `src/unnamed/part_002` lines 69-76, which also
maps "on hold" to a 6-hour timeout. -/
def AMBIGUOUS_STATUSES : List (String × Nat) :=
  [("clearance event", 18), ("customs clearance", 18), ("processing", 24),
   ("on hold", 6), ("exception", 12), ("clearance processing", 18)]

/-- `checkAmbiguousStatus` of `src/unnamed/part_002` lines 90-150 (this
variant lower-cases `updateText` without a null guard, so the text is a
plain string here). -/
def checkAmbiguousStatus (state : Option AmbiguousStatusRecord) (now : Int)
    (updateText : String) :
    Option AmbiguousStatusRecord × Option AmbIssue :=
  checkAmbiguousWith AMBIGUOUS_STATUSES state now updateText

end Variant2

/-- ASCII whitespace as matched by the JS `\s` class and `trim()` on the
texts this service sees (space, tab, line feed, carriage return, vertical
tab, form feed). -/
def isSpaceJS (c : Char) : Bool :=
  c == ' ' || c == '\t' || c == '\n' || c == '\r' || c == '\x0b' || c == '\x0c'

/-- JS `String.prototype.trim`: drop whitespace from both ends. -/
def jsTrim (l : List Char) : List Char :=
  ((l.dropWhile isSpaceJS).reverse.dropWhile isSpaceJS).reverse

/-- `trim` packaged on strings. -/
def jsTrimS (s : String) : String := String.mk (jsTrim s.toList)

namespace Enhanced

/-- `LOCATION_CODES` of `src/unnamed/part_001` lines 121-212. -/
def LOCATION_CODES : List (String × String) :=
  [("IN", "India"), ("CN", "China"),
   ("UK", "United Kingdom"), ("GB", "United Kingdom"),
   ("DE", "Germany"), ("FR", "France"), ("IT", "Italy"), ("ES", "Spain"),
   ("NL", "Netherlands"), ("BE", "Belgium"), ("AT", "Austria"),
   ("SE", "Sweden"), ("DK", "Denmark"), ("FI", "Finland"), ("NO", "Norway"),
   ("CH", "Switzerland"), ("PL", "Poland"), ("CZ", "Czech Republic"),
   ("HU", "Hungary"), ("RO", "Romania"), ("BG", "Bulgaria"), ("GR", "Greece"),
   ("PT", "Portugal"), ("IE", "Ireland"), ("LU", "Luxembourg"),
   ("SK", "Slovakia"), ("SI", "Slovenia"), ("EE", "Estonia"), ("LV", "Latvia"),
   ("LT", "Lithuania"), ("MT", "Malta"), ("CY", "Cyprus"), ("HR", "Croatia"),
   ("HEATHROW", "London Heathrow - UK"), ("GATWICK", "London Gatwick - UK"),
   ("STANSTED", "London Stansted - UK"), ("EAST MIDLANDS", "East Midlands - UK"),
   ("BIRMINGHAM", "Birmingham - UK"), ("MANCHESTER", "Manchester - UK"),
   ("EDINBURGH", "Edinburgh - UK"), ("GLASGOW", "Glasgow - UK"),
   ("COLOGNE", "Cologne - Germany"), ("LEIPZIG", "Leipzig - Germany"),
   ("FRANKFURT", "Frankfurt - Germany"), ("PARIS", "Paris - France"),
   ("AMSTERDAM", "Amsterdam - Netherlands"), ("MADRID", "Madrid - Spain"),
   ("MILAN", "Milan - Italy"), ("BRUSSELS", "Brussels - Belgium"),
   ("VIENNA", "Vienna - Austria"), ("STOCKHOLM", "Stockholm - Sweden"),
   ("COPENHAGEN", "Copenhagen - Denmark"), ("WARSAW", "Warsaw - Poland"),
   ("PRAGUE", "Prague - Czech Republic"), ("BUDAPEST", "Budapest - Hungary"),
   ("BUCHAREST", "Bucharest - Romania"), ("ATHENS", "Athens - Greece"),
   ("LISBON", "Lisbon - Portugal"), ("DUBLIN", "Dublin - Ireland"),
   ("ZURICH", "Zurich - Switzerland"),
   ("MUMBAI", "Mumbai - India"), ("DELHI", "Delhi - India"),
   ("BANGALORE", "Bangalore - India"), ("CHENNAI", "Chennai - India"),
   ("KOLKATA", "Kolkata - India"), ("HYDERABAD", "Hyderabad - India"),
   ("PUNE", "Pune - India"), ("GURGAON", "Gurgaon - India"),
   ("NOIDA", "Noida - India"),
   ("SHANGHAI", "Shanghai - China"), ("BEIJING", "Beijing - China"),
   ("GUANGZHOU", "Guangzhou - China"), ("SHENZHEN", "Shenzhen - China"),
   ("HONG KONG", "Hong Kong"), ("HK", "Hong Kong"),
   ("TIANJIN", "Tianjin - China"), ("QINGDAO", "Qingdao - China"),
   ("XIAMEN", "Xiamen - China"), ("CHENGDU", "Chengdu - China")]

/-- Lookup in `LOCATION_CODES`. -/
def lookupLocationCode (code : String) : Option String :=
  (LOCATION_CODES.find? (fun p => p.1 == code)).map Prod.snd

/-- The character class `[A-Z\s]` of the location patterns. -/
def locClass (c : Char) : Bool := c.isUpper || isSpaceJS c

/-- One leftmost-match attempt of `/([A-Z][A-Z\s]+)\s*-\s*([A-Z]{2})/` at the
head of `l`, returning `((group1, group2), rest-after-match)`. The class
`[A-Z\s]` excludes `-`, so the greedy group must run to the maximal
`[A-Z\s]` run, the literal `-` can only be the character right after it
(spaces before the dash are absorbed by the greedy group), and no
backtracking alternative exists: the attempt is deterministic. -/
def matchP1At (l : List Char) : Option ((List Char × List Char) × List Char) :=
  match l with
  | [] => none
  | c :: _ =>
    if c.isUpper then
      let run := l.takeWhile locClass
      if 2 ≤ run.length then
        match l.drop run.length with
        | '-' :: tail =>
          let tail2 := tail.dropWhile isSpaceJS
          match tail2 with
          | a :: b :: after =>
            if a.isUpper && b.isUpper then some ((run, [a, b]), after) else none
          | _ => none
        | _ => none
      else none
    else none

/-- One leftmost-match attempt of `/([A-Z][A-Z\s]+)-([A-Z]{2})/` (no space
skipping around the dash); deterministic for the same reason as `matchP1At`. -/
def matchP2At (l : List Char) : Option ((List Char × List Char) × List Char) :=
  match l with
  | [] => none
  | c :: _ =>
    if c.isUpper then
      let run := l.takeWhile locClass
      if 2 ≤ run.length then
        match l.drop run.length with
        | '-' :: a :: b :: after =>
          if a.isUpper && b.isUpper then some ((run, [a, b]), after) else none
        | _ => none
      else none
    else none

/-- One leftmost-match attempt of `/(?:at|in)\s+([A-Z][A-Z\s]+)/`. After the
greedy `\s+` the group must open with an upper-case letter; giving spaces
back cannot help (the group would then open with a space), so the attempt is
deterministic. -/
def matchP3At (l : List Char) : Option (List Char × List Char) :=
  match l with
  | x :: y :: rest =>
    if (x == 'a' && y == 't') || (x == 'i' && y == 'n') then
      let sp := rest.takeWhile isSpaceJS
      if 1 ≤ sp.length then
        let rest2 := rest.drop sp.length
        let run := rest2.takeWhile locClass
        match rest2 with
        | c :: _ => if c.isUpper && 2 ≤ run.length then some (run, rest2.drop run.length) else none
        | [] => none
      else none
    else none
  | _ => none

/-- The `(?:in|from|to)` alternation of the fourth pattern (alternatives have
distinct first letters, so at most one applies at a position). -/
def p4Keyword (l : List Char) : Option Nat :=
  if ['i', 'n'].isPrefixOf l then some 2
  else if ['f', 'r', 'o', 'm'].isPrefixOf l then some 4
  else if ['t', 'o'].isPrefixOf l then some 2
  else none

/-- One leftmost-match attempt of `/(?:in|from|to)\s+([A-Z]{2})(?:\s|$)/`;
the trailing `\s`, when present, is consumed by the match. -/
def matchP4At (l : List Char) : Option (List Char × List Char) :=
  match p4Keyword l with
  | none => none
  | some klen =>
    let rest := l.drop klen
    let sp := rest.takeWhile isSpaceJS
    if 1 ≤ sp.length then
      let rest2 := rest.drop sp.length
      match rest2 with
      | a :: b :: tail =>
        if a.isUpper && b.isUpper then
          match tail with
          | [] => some ([a, b], [])
          | d :: tail2 => if isSpaceJS d then some ([a, b], tail2) else none
        else none
      | _ => none
    else none

/-- `matchAll` for one pattern: repeatedly find the leftmost match, resuming
after each match (the JS `lastIndex`). The fuel only bounds the recursion;
`length + 1` steps always suffice since every step drops at least one
character. -/
def scanMatches {α : Type} (matchAt : List Char → Option (α × List Char)) :
    Nat → List Char → List α
  | 0, _ => []
  | _, [] => []
  | fuel + 1, c :: rest =>
    match matchAt (c :: rest) with
    | some (g, after) => g :: scanMatches matchAt fuel after
    | none => scanMatches matchAt fuel rest

/-- The `match[2]` branch of `extractLocationFromUpdate`: expand the country
code via `LOCATION_CODES` (falling back to the code itself) and join. -/
def formatCityCountry (m : List Char × List Char) : String :=
  let city := String.mk (jsTrim m.1)
  let countryCode := String.mk (jsTrim m.2)
  let country := (lookupLocationCode countryCode).getD countryCode
  city ++ " - " ++ country

/-- `extractLocationFromUpdate` of `src/unnamed/part_001` lines 214-255: try
the four patterns in order, use the `last` match of the first pattern that
matches anywhere, formatting city-country matches via the code table and
returning `match[1].trim()` for the single-group patterns. -/
def extractLocationFromUpdate (updateText : String) : Option String :=
  if updateText = "" then none
  else
    let l := updateText.toList
    let fuel := l.length + 1
    match (scanMatches matchP1At fuel l).getLast? with
    | some m => some (formatCityCountry m)
    | none =>
      match (scanMatches matchP2At fuel l).getLast? with
      | some m => some (formatCityCountry m)
      | none =>
        match (scanMatches matchP3At fuel l).getLast? with
        | some g => some (String.mk (jsTrim g))
        | none =>
          match (scanMatches matchP4At fuel l).getLast? with
          | some g => some (String.mk (jsTrim g))
          | none => none

/-- The prioritised source list of `getLocationFromColumns`
(`src/unnamed/part_001` lines 260-268). -/
def locationSources : List (List String) :=
  [["latest_location", "latest_loc"], ["current_location", "current_loc"],
   ["location"], ["hub"], ["qc_hub"], ["region"]]

/-- `columnMap[key]` with JS absent-or-empty collapsing to `""`; the column
map is the entries list of the JS object, in insertion order. -/
def lookupColumn (columnMap : List (String × String)) (key : String) : String :=
  ((columnMap.find? (fun kv => kv.1 == key)).map Prod.snd).getD ""

/-- Exact-key pass of one source: first pattern whose column holds a truthy
value. -/
def findExactSource (columnMap : List (String × String)) (pats : List String) :
    Option String :=
  pats.findSome? (fun p =>
    let v := lookupColumn columnMap p
    if v = "" then none else some v)

/-- Partial-match pass of one source: first entry with a truthy value whose
lower-cased column id contains some pattern. -/
def findPartialSource (columnMap : List (String × String)) (pats : List String) :
    Option String :=
  columnMap.findSome? (fun kv =>
    if kv.2 = "" then none
    else if pats.any (fun p => containsSeq (lowerChars p) (lowerChars kv.1)) then
      some kv.2
    else none)

/-- `getLocationFromColumns` of `src/unnamed/part_001` lines 257-295:
for each source in priority order, exact key matches first, then partial
column-id matches; sentinel `"Unknown Location"` when nothing holds a value. -/
def getLocationFromColumns (columnMap : List (String × String)) : String :=
  match locationSources.findSome? (fun pats =>
      match findExactSource columnMap pats with
      | some v => some v
      | none => findPartialSource columnMap pats) with
  | some v => v
  | none => "Unknown Location"

/-- The location priority chain of the webhook handler
(`src/unnamed/part_001` lines 910-927): the board's location columns win
when they resolve to anything other than the sentinel, then a truthy
AI-extracted location, then extraction from the update text, else the
sentinel. -/
def resolveLocation (columnMap : List (String × String))
    (extractedLocation : Option String) (updateText : String) : String :=
  let mondayLocation := getLocationFromColumns columnMap
  if mondayLocation ≠ "Unknown Location" then mondayLocation
  else if extractedLocation.getD "" ≠ "" then extractedLocation.getD ""
  else
    match extractLocationFromUpdate updateText with
    | some updateLocation =>
      if updateLocation ≠ "" then updateLocation else "Unknown Location"
    | none => "Unknown Location"

/-- The JSON object read out of the classification-service reply, with JS
field-access semantics: a missing or `null`/empty field reads as the falsy
value of its type (`false`, `none`, `""`). -/
structure GeminiAnalysis where
  hasIssue : Bool
  isResolved : Bool
  issueType : Option String
  severity : String
  reason : String
  currentLocation : Option String
  carrier : String
  route : String
deriving DecidableEq

/-- JS `a || b` on strings (falsy = empty). -/
def jsOr (s d : String) : String := if s = "" then d else s

/-- The `issueType` conversion ternary chain of `analyzeWithGemini`. -/
def mapGeminiIssueType (t : Option String) : String :=
  match t with
  | some "customs_held" => "held in customs"
  | some "delivery_failed" => "experiencing delivery failure"
  | some "transit_delay" => "experiencing transit delay"
  | some "hub_delay" => "experiencing processing delay at hub"
  | some "final_mile_issue" => "experiencing final mile delivery issue"
  | some "damage_loss" => "experiencing damage or loss issue"
  | some "eu_customs_complex" => "experiencing EU customs complexity"
  | some "tracking_stale" => "showing stale tracking information"
  | _ => "experiencing a delay"

/-- `analyzeWithGemini` of `src/unnamed/part_001` lines 471-617, with the
external collaborators as parameters: `configured` is `genAI !== null`;
`callResult` is the `generateContent` call, `none` when it throws (the outer
`catch`); `parse` is the brace-extraction plus `JSON.parse` try-block applied
to the trimmed response text, `none` when `JSON.parse` throws (the inner
`catch`), otherwise the parsed object with JS truthiness field reads. The
`isStaleUpdate` parameter of the JS function only feeds the prompt text and
is dropped. -/
def analyzeWithGemini (configured : Bool) (callResult : Option String)
    (parse : String → Option GeminiAnalysis) (updateText : String) :
    Option Issue :=
  if !configured then detectIssueBasic updateText
  else
    match callResult with
    | none => detectIssueBasic updateText
    | some raw =>
      let response := jsTrimS raw
      match parse response with
      | none => detectIssueBasic updateText
      | some analysis =>
        if !analysis.hasIssue || analysis.isResolved then none
        else
          some { type := mapGeminiIssueType analysis.issueType,
                 severity := analysis.severity,
                 reason := analysis.reason,
                 carrier := jsOr analysis.carrier "unknown",
                 extractedLocation := analysis.currentLocation,
                 route := some (jsOr analysis.route "unknown") }

end Enhanced

namespace MultiBoard

/-- The `://` tail of the tracking-URL scheme test. -/
def schemeSlashes : List Char → Bool
  | a :: b :: c :: _ => a == ':' && b == '/' && c == '/'
  | _ => false

/-- After a case-insensitive `http`: either `://` directly or `s` (either
case) then `://`. -/
def schemeTail : List Char → Bool
  | [] => false
  | c :: rest => schemeSlashes (c :: rest) || ((c == 's' || c == 'S') && schemeSlashes rest)

/-- The `/^https?:\/\//i` test of `extractTrackingNumber`, unfolded
character by character (`:` and `/` have no case). -/
def hasUrlScheme : List Char → Bool
  | c1 :: c2 :: c3 :: c4 :: rest =>
    (c1 == 'h' || c1 == 'H') && (c2 == 't' || c2 == 'T') &&
      (c3 == 't' || c3 == 'T') && (c4 == 'p' || c4 == 'P') && schemeTail rest
  | _ => false

/-- Case-insensitive literal prefix match, for the lower-case key
alternations under the `/i` flag. -/
def ciPrefixOf (pat : String) (l : List Char) : Bool :=
  pat.toList.isPrefixOf (l.map Char.toLower)

/-- The capture `([A-Za-z0-9]{8,35})` with nothing after it: the greedy
quantifier takes `min 35` of the leading alphanumeric run and succeeds when
at least 8 characters were taken. -/
def alnumGroup (l : List Char) : Option (List Char) :=
  let g := (l.takeWhile Char.isAlphanum).take 35
  if 8 ≤ g.length then some g else none

/-- The `[=\-:]?` separator followed by the capture: the greedy option first
consumes a separator character when present, backtracking to the zero-width
branch if the capture then fails. -/
def afterKeyGroup (l : List Char) : Option (List Char) :=
  match l with
  | c :: rest =>
    if c == '=' || c == '-' || c == ':' then
      (alnumGroup rest).orElse (fun _ => alnumGroup l)
    else alnumGroup l
  | [] => alnumGroup []

/-- At one position: try the key alternatives in pattern order; a key whose
following capture fails falls through to the next alternative. -/
def tryKeysAt (keys : List String) (l : List Char) : Option (List Char) :=
  keys.findSome? (fun k =>
    if ciPrefixOf k l then afterKeyGroup (l.drop k.toList.length) else none)

/-- Leftmost match of `(?:key1|key2|...)[=\-:]?([A-Za-z0-9]{8,35})`,
returning the captured group. -/
def scanKeys (keys : List String) : List Char → Option (List Char)
  | [] => none
  | c :: rest => (tryKeysAt keys (c :: rest)).orElse (fun _ => scanKeys keys rest)

/-- `(?:[\/&?#]|$)` lookahead of the generic pattern at offset `m`. -/
def genericNextOk (l : List Char) (m : Nat) : Bool :=
  match l.drop m with
  | [] => true
  | d :: _ => d == '/' || d == '&' || d == '?' || d == '#'

/-- Greedy-with-backtracking `([A-Za-z0-9]{8,35})(?:[\/&?#]|$)`: try the
largest capture first, shrinking one character at a time down to 8. -/
def genericTail (l run : List Char) : Nat → Option (List Char)
  | 0 => none
  | m + 1 =>
    if 8 ≤ m + 1 then
      if genericNextOk l (m + 1) then some (run.take (m + 1)) else genericTail l run m
    else none

/-- Attempt of the generic capture just after a `/` or `=`. -/
def genericStart (l : List Char) : Option (List Char) :=
  let run := l.takeWhile Char.isAlphanum
  genericTail l run (min 35 run.length)

/-- Leftmost match of the generic fallback
`/(?:\/|=)([A-Za-z0-9]{8,35})(?:[\/&?#]|$)/`, returning the capture. -/
def scanGeneric : List Char → Option (List Char)
  | [] => none
  | c :: rest =>
    if c == '/' || c == '=' then
      match genericStart rest with
      | some g => some g
      | none => scanGeneric rest
    else scanGeneric rest

/-- Key alternations of the DHL pattern
`/(?:tracking-id|awb|piececode|trackingNumber)[=\-:]?.../i`. -/
def dhlKeys : List String := ["tracking-id", "awb", "piececode", "trackingnumber"]

/-- Key alternations of the FedEx pattern
`/(?:tracknumbers?|trackingNumber)[=\-:]?.../i`; the optional greedy `s?`
expands to trying "tracknumbers" before "tracknumber". -/
def fedexKeys : List String := ["tracknumbers", "tracknumber", "trackingnumber"]

/-- Key alternations of the UPS pattern
`/(?:tracknum|trackingNumber)[=\-:]?.../i`. -/
def upsKeys : List String := ["tracknum", "trackingnumber"]

/-- `extractTrackingNumber` of `src/index.js` lines 586-610: empty input
yields `""`; a trimmed value with no URL scheme and no whitespace is already
a plain token and is returned; otherwise the DHL, FedEx, UPS and generic
patterns are tried in order and the first capture is returned, falling back
to the trimmed input itself. -/
def extractTrackingNumber (raw : String) : String :=
  if raw = "" then ""
  else
    let s := jsTrim raw.toList
    if !(hasUrlScheme s) && !(s.any isSpaceJS) then String.mk s
    else
      match scanKeys dhlKeys s with
      | some g => String.mk g
      | none =>
        match scanKeys fedexKeys s with
        | some g => String.mk g
        | none =>
          match scanKeys upsKeys s with
          | some g => String.mk g
          | none =>
            match scanGeneric s with
            | some g => String.mk g
            | none => String.mk s

/-- The write decision of `normalizeCustomerTracking` (`src/index.js` lines
612-641): given the configured tracking column and the current field text,
return the value written back via `change_simple_column_value`, or `none`
when the function returns without writing (no column configured, empty
current value, empty cleaned value, or cleaned value equal to the current
one). -/
def normalizeCustomerTracking (customerTrackingCol : Option String)
    (current : String) : Option String :=
  match customerTrackingCol with
  | none => none
  | some _ =>
    if current = "" then none
    else
      let cleaned := extractTrackingNumber current
      if cleaned = "" ∨ cleaned = current then none
      else some cleaned

end MultiBoard

/-! Helper lemmas about `dropWhile`, `jsTrim` and the tracking-token
matchers, feeding the idempotence proof of claim C9. -/

theorem dropWhile_self_idem {α : Type} (p : α → Bool) (l : List α) :
    (l.dropWhile p).dropWhile p = l.dropWhile p := by
  induction l with
  | nil => rfl
  | cons a t ih =>
    by_cases h : p a = true
    · simp [List.dropWhile_cons, h, ih]
    · simp [List.dropWhile_cons, h]

theorem head_dropWhile_false {α : Type} (p : α → Bool) (l : List α) :
    ∀ a, (l.dropWhile p).head? = some a → p a = false := by
  induction l with
  | nil => intro a h; simp at h
  | cons b t ih =>
    intro a h
    by_cases hb : p b = true
    · rw [List.dropWhile_cons, if_pos hb] at h
      exact ih a h
    · rw [List.dropWhile_cons, if_neg hb] at h
      simp at h
      rw [← h]
      simpa using hb

theorem dropWhile_eq_self_of_head {α : Type} (p : α → Bool) (l : List α)
    (h : ∀ a, l.head? = some a → p a = false) : l.dropWhile p = l := by
  cases l with
  | nil => rfl
  | cons b t =>
    rw [List.dropWhile_cons, if_neg]
    simp [h b rfl]

theorem dropWhile_isSuffix {α : Type} (p : α → Bool) (l : List α) :
    l.dropWhile p <:+ l := by
  induction l with
  | nil => simp
  | cons b t ih =>
    by_cases hb : p b = true
    · rw [List.dropWhile_cons, if_pos hb]
      exact ih.trans (List.suffix_cons b t)
    · rw [List.dropWhile_cons, if_neg hb]

theorem getLast?_of_suffix {α : Type} {l₁ l₂ : List α} (h : l₁ <:+ l₂)
    (hne : l₁ ≠ []) : l₂.getLast? = l₁.getLast? := by
  obtain ⟨t, rfl⟩ := h
  exact List.getLast?_append_of_ne_nil _ hne

theorem jsTrim_idem (l : List Char) : jsTrim (jsTrim l) = jsTrim l := by
  unfold jsTrim
  have h1 : ((l.dropWhile isSpaceJS).reverse.dropWhile isSpaceJS).reverse.dropWhile isSpaceJS
      = ((l.dropWhile isSpaceJS).reverse.dropWhile isSpaceJS).reverse := by
    apply dropWhile_eq_self_of_head
    intro a ha
    rw [List.head?_reverse] at ha
    by_cases hyn : (l.dropWhile isSpaceJS).reverse.dropWhile isSpaceJS = []
    · rw [hyn] at ha; simp at ha
    · have hs := getLast?_of_suffix (dropWhile_isSuffix isSpaceJS (l.dropWhile isSpaceJS).reverse) hyn
      rw [List.getLast?_reverse] at hs
      exact head_dropWhile_false isSpaceJS l a (hs.trans ha)
  rw [h1, List.reverse_reverse, dropWhile_self_idem]

theorem jsTrim_of_no_space (l : List Char)
    (h : ∀ c ∈ l, isSpaceJS c = false) : jsTrim l = l := by
  unfold jsTrim
  have h1 : l.dropWhile isSpaceJS = l := by
    apply dropWhile_eq_self_of_head
    intro a ha
    cases l with
    | nil => simp at ha
    | cons b t =>
      simp at ha
      exact ha ▸ h b (List.mem_cons_self b t)
  rw [h1]
  have h2 : l.reverse.dropWhile isSpaceJS = l.reverse := by
    apply dropWhile_eq_self_of_head
    intro a ha
    cases hrev : l.reverse with
    | nil => rw [hrev] at ha; simp at ha
    | cons b t =>
      rw [hrev] at ha
      simp at ha
      refine ha ▸ h b ?_
      have : b ∈ l.reverse := hrev ▸ List.mem_cons_self b t
      simpa using this
  rw [h2, List.reverse_reverse]

theorem isSpaceJS_eq_false_of_alnum {c : Char} (h : c.isAlphanum = true) :
    isSpaceJS c = false := by
  simp only [isSpaceJS, Bool.or_eq_false_iff, beq_eq_false_iff_ne, ne_eq]
  refine ⟨⟨⟨⟨⟨?_, ?_⟩, ?_⟩, ?_⟩, ?_⟩, ?_⟩ <;>
    (intro hc; rw [hc] at h; exact absurd h (by decide))

theorem schemeSlashes_mem {x : List Char}
    (h : MultiBoard.schemeSlashes x = true) : ':' ∈ x := by
  rcases x with _ | ⟨a, _ | ⟨b, _ | ⟨c, t⟩⟩⟩ <;> simp [MultiBoard.schemeSlashes] at h
  obtain ⟨⟨rfl, -⟩, -⟩ := h
  exact List.mem_cons_self _ _

theorem schemeTail_mem {x : List Char}
    (h : MultiBoard.schemeTail x = true) : ':' ∈ x := by
  cases x with
  | nil => simp [MultiBoard.schemeTail] at h
  | cons c rest =>
    simp only [MultiBoard.schemeTail, Bool.or_eq_true, Bool.and_eq_true] at h
    rcases h with h | ⟨_, h⟩
    · exact schemeSlashes_mem h
    · exact List.mem_cons_of_mem c (schemeSlashes_mem h)

theorem hasUrlScheme_eq_false_of_alnum {l : List Char}
    (h : ∀ c ∈ l, c.isAlphanum = true) : MultiBoard.hasUrlScheme l = false := by
  by_contra hcon
  rw [Bool.not_eq_false] at hcon
  rcases l with _ | ⟨c1, _ | ⟨c2, _ | ⟨c3, _ | ⟨c4, rest⟩⟩⟩⟩ <;>
    simp [MultiBoard.hasUrlScheme] at hcon
  have hmem : (':' : Char) ∈ c1 :: c2 :: c3 :: c4 :: rest := by
    have := schemeTail_mem hcon.2
    simp [this]
  exact absurd (h ':' hmem) (by decide)

theorem alnumGroup_spec {l g : List Char} (h : MultiBoard.alnumGroup l = some g) :
    8 ≤ g.length ∧ ∀ c ∈ g, c.isAlphanum = true := by
  simp only [MultiBoard.alnumGroup] at h
  split at h
  · injection h with h2
    subst h2
    refine ⟨by assumption, fun c hc => ?_⟩
    exact List.mem_takeWhile_imp (List.mem_of_mem_take hc)
  · exact absurd h (by simp)

theorem afterKeyGroup_spec {l g : List Char}
    (h : MultiBoard.afterKeyGroup l = some g) :
    8 ≤ g.length ∧ ∀ c ∈ g, c.isAlphanum = true := by
  rcases l with _ | ⟨c, rest⟩
  · simp only [MultiBoard.afterKeyGroup] at h
    exact alnumGroup_spec h
  · simp only [MultiBoard.afterKeyGroup] at h
    split at h
    · cases ha : MultiBoard.alnumGroup rest with
      | some g2 =>
        rw [ha] at h
        simp only [Option.orElse] at h
        injection h with h2
        subst h2
        exact alnumGroup_spec ha
      | none =>
        rw [ha] at h
        simp only [Option.orElse] at h
        exact alnumGroup_spec h
    · exact alnumGroup_spec h

theorem tryKeysAt_spec {keys : List String} {l g : List Char}
    (h : MultiBoard.tryKeysAt keys l = some g) :
    8 ≤ g.length ∧ ∀ c ∈ g, c.isAlphanum = true := by
  obtain ⟨k, -, hk⟩ := List.exists_of_findSome?_eq_some h
  split at hk
  · exact afterKeyGroup_spec hk
  · exact absurd hk (by simp)

theorem scanKeys_spec {keys : List String} {l g : List Char}
    (h : MultiBoard.scanKeys keys l = some g) :
    8 ≤ g.length ∧ ∀ c ∈ g, c.isAlphanum = true := by
  induction l with
  | nil => exact absurd h (by simp [MultiBoard.scanKeys])
  | cons c rest ih =>
    rw [MultiBoard.scanKeys] at h
    cases ht : MultiBoard.tryKeysAt keys (c :: rest) with
    | some g2 =>
      rw [ht] at h
      simp [Option.orElse] at h
      exact h ▸ tryKeysAt_spec ht
    | none =>
      rw [ht] at h
      simp [Option.orElse] at h
      exact ih h

theorem genericTail_spec {l run g : List Char} :
    ∀ m, m ≤ run.length → MultiBoard.genericTail l run m = some g →
      8 ≤ g.length ∧ ∀ c ∈ g, c ∈ run := by
  intro m
  induction m with
  | zero => intro _ h; exact absurd h (by simp [MultiBoard.genericTail])
  | succ m ih =>
    intro hle h
    rw [MultiBoard.genericTail] at h
    split at h
    · split at h
      · injection h with h2
        subst h2
        refine ⟨?_, fun c hc => List.mem_of_mem_take hc⟩
        rw [List.length_take]
        omega
      · exact ih (by omega) h
    · exact absurd h (by simp)

theorem genericStart_spec {l g : List Char}
    (h : MultiBoard.genericStart l = some g) :
    8 ≤ g.length ∧ ∀ c ∈ g, c.isAlphanum = true := by
  unfold MultiBoard.genericStart at h
  have hspec := genericTail_spec (min 35 (l.takeWhile Char.isAlphanum).length)
    (by omega) h
  exact ⟨hspec.1, fun c hc => List.mem_takeWhile_imp (hspec.2 c hc)⟩

theorem scanGeneric_spec {l g : List Char}
    (h : MultiBoard.scanGeneric l = some g) :
    8 ≤ g.length ∧ ∀ c ∈ g, c.isAlphanum = true := by
  induction l with
  | nil => exact absurd h (by simp [MultiBoard.scanGeneric])
  | cons c rest ih =>
    rw [MultiBoard.scanGeneric] at h
    split at h
    · split at h
      · injection h with h2
        subst h2
        exact genericStart_spec (by assumption)
      · exact ih h
    · exact ih h

theorem plain_token_roundtrip {g : List Char} (hne : g ≠ [])
    (halnum : ∀ c ∈ g, c.isAlphanum = true) :
    MultiBoard.extractTrackingNumber (String.mk g) = String.mk g := by
  have hnempty : String.mk g ≠ "" := by
    intro hc
    exact hne (congrArg String.data hc)
  have hlist : (String.mk g).toList = g := rfl
  have hnosp : ∀ c ∈ g, isSpaceJS c = false :=
    fun c hc => isSpaceJS_eq_false_of_alnum (halnum c hc)
  have htrim : jsTrim (String.mk g).toList = g := by
    rw [hlist]; exact jsTrim_of_no_space g hnosp
  unfold MultiBoard.extractTrackingNumber
  rw [if_neg hnempty, htrim, if_pos]
  rw [hasUrlScheme_eq_false_of_alnum halnum]
  simp [List.any_eq_false]
  intro c hc
  simp [hnosp c hc]

theorem extract_fixed_of_plain (s : List Char)
    (hsp : ∀ c ∈ s, isSpaceJS c = false)
    (hsc : MultiBoard.hasUrlScheme s = false) :
    MultiBoard.extractTrackingNumber (String.mk s) = String.mk s := by
  by_cases hnil : s = []
  · subst hnil; rfl
  · have hne : String.mk s ≠ "" := fun hc => hnil (congrArg String.data hc)
    have htl : (String.mk s).toList = s := rfl
    have htr : jsTrim s = s := jsTrim_of_no_space s hsp
    have hany : s.any isSpaceJS = false :=
      List.any_eq_false.mpr (fun c hc => by simp [hsp c hc])
    simp [MultiBoard.extractTrackingNumber, hne, htl, htr, hsc, hany]

theorem extract_fixed_of_fallback (s : List Char)
    (htrim : jsTrim s = s)
    (hcond : (!(MultiBoard.hasUrlScheme s) && !(s.any isSpaceJS)) = false)
    (hd : MultiBoard.scanKeys MultiBoard.dhlKeys s = none)
    (hf : MultiBoard.scanKeys MultiBoard.fedexKeys s = none)
    (hu : MultiBoard.scanKeys MultiBoard.upsKeys s = none)
    (hg : MultiBoard.scanGeneric s = none) :
    MultiBoard.extractTrackingNumber (String.mk s) = String.mk s := by
  have hnil : s ≠ [] := by
    intro hsnil
    subst hsnil
    simp [MultiBoard.hasUrlScheme] at hcond
  have hne : String.mk s ≠ "" := fun hc => hnil (congrArg String.data hc)
  have htl : (String.mk s).toList = s := rfl
  simp [MultiBoard.extractTrackingNumber, hne, htl, htrim, hcond, hd, hf, hu, hg]

theorem extract_fixed_of_token (g : List Char) (_hlen : 8 ≤ g.length)
    (halnum : ∀ c ∈ g, c.isAlphanum = true) :
    MultiBoard.extractTrackingNumber (String.mk g) = String.mk g := by
  refine extract_fixed_of_plain g (fun c hc => isSpaceJS_eq_false_of_alnum (halnum c hc)) ?_
  exact hasUrlScheme_eq_false_of_alnum halnum

theorem extractTrackingNumber_idem (raw : String) :
    MultiBoard.extractTrackingNumber (MultiBoard.extractTrackingNumber raw) =
      MultiBoard.extractTrackingNumber raw := by
  generalize hE : MultiBoard.extractTrackingNumber raw = out
  by_cases h0 : raw = ""
  · subst h0
    simp [MultiBoard.extractTrackingNumber] at hE
    subst hE
    rfl
  · unfold MultiBoard.extractTrackingNumber at hE
    rw [if_neg h0] at hE
    by_cases hplain :
      (!(MultiBoard.hasUrlScheme (jsTrim raw.toList)) &&
        !((jsTrim raw.toList).any isSpaceJS)) = true
    · rw [if_pos hplain] at hE
      subst hE
      obtain ⟨ha, hb⟩ := Bool.and_eq_true_iff.mp hplain
      refine extract_fixed_of_plain _ ?_ (by simpa using ha)
      intro c hc
      have := List.any_eq_false.mp (by simpa using hb) c hc
      simpa using this
    · rw [if_neg hplain] at hE
      cases hd : MultiBoard.scanKeys MultiBoard.dhlKeys (jsTrim raw.toList) with
      | some g =>
        rw [hd] at hE
        subst hE
        exact extract_fixed_of_token g (scanKeys_spec hd).1 (scanKeys_spec hd).2
      | none =>
        rw [hd] at hE
        cases hf : MultiBoard.scanKeys MultiBoard.fedexKeys (jsTrim raw.toList) with
        | some g =>
          rw [hf] at hE
          subst hE
          exact extract_fixed_of_token g (scanKeys_spec hf).1 (scanKeys_spec hf).2
        | none =>
          rw [hf] at hE
          cases hu : MultiBoard.scanKeys MultiBoard.upsKeys (jsTrim raw.toList) with
          | some g =>
            rw [hu] at hE
            subst hE
            exact extract_fixed_of_token g (scanKeys_spec hu).1 (scanKeys_spec hu).2
          | none =>
            rw [hu] at hE
            cases hg : MultiBoard.scanGeneric (jsTrim raw.toList) with
            | some g =>
              rw [hg] at hE
              subst hE
              exact extract_fixed_of_token g (scanGeneric_spec hg).1 (scanGeneric_spec hg).2
            | none =>
              rw [hg] at hE
              subst hE
              exact extract_fixed_of_fallback _ (jsTrim_idem raw.toList)
                (by simpa using hplain) hd hf hu hg

/-! Claim theorems. -/

/-- Claim C1: every update text matched by the delivered/terminal-success
pattern is classified as no issue by the rule cascades, regardless of any
other issue pattern also present in the text — in `detectIssueBasic` the
delivered pattern is tested before every other rule, and in the
`src/index.js` `analyzeIssue` the substring "delivered" short-circuits to
`none` before the customs and delivery-failure rules. -/
theorem C1_delivered_short_circuit :
    (∀ t : String, Enhanced.testDelivered (lowerChars t) = true →
      Enhanced.detectIssueBasic t = none) ∧
    (∀ t : String, containsPhrase (lowerChars t) "delivered" = true →
      MultiBoard.analyzeIssue t = none) := by
  constructor
  · intro t h
    by_cases he : t = ""
    · simp [Enhanced.detectIssueBasic, he]
    · simp [Enhanced.detectIssueBasic, he, h]
  · intro t h
    simp [MultiBoard.analyzeIssue, h]

/-- Witness for C1: texts that also contain customs / on-hold / exception /
delivery-failure patterns but are delivered, so both classifiers say none. -/
theorem C1_witness :
    Enhanced.detectIssueBasic
        "UPS exception: held by customs, on hold, but now DELIVERED" = none ∧
    MultiBoard.analyzeIssue "on hold at customs, premises closed, delivered" = none :=
  ⟨C1_delivered_short_circuit.1 _ (by decide),
   C1_delivered_short_circuit.2 _ (by decide)⟩

/-- Claim C2: transitions of the same-text staleness tracker. First sighting
starts a record with count 1 and emits nothing; an unchanged text increments
the count, keeps `firstSeenAt`, and emits the medium stale issue (reason
carrying the rounded elapsed hours) exactly when elapsed time exceeds 36
hours; a changed text resets the record and emits nothing. -/
theorem C2_stale_tracker_transitions :
    (∀ (now : Int) (t : String),
      Enhanced.checkForStaleUpdate none now t =
        (some { lastUpdateText := t, firstSeenAt := now, lastSeenAt := now,
                updateCount := 1 }, none)) ∧
    (∀ (h : Enhanced.UpdateHistoryRecord) (now : Int) (t : String),
      h.lastUpdateText = t →
      Enhanced.checkForStaleUpdate (some h) now t =
        (some { h with lastSeenAt := now, updateCount := h.updateCount + 1 },
         if Enhanced.staleThresholdMs < now - h.firstSeenAt then
           some { type := "showing stale tracking information",
                  severity := "medium",
                  reason := "Same update \"" ++ t ++ "\" for " ++
                    toString (roundHours (now - h.firstSeenAt)) ++ " hours",
                  isStaleUpdate := true,
                  hoursStale := roundHours (now - h.firstSeenAt) }
         else none)) ∧
    (∀ (h : Enhanced.UpdateHistoryRecord) (now : Int) (t : String),
      h.lastUpdateText ≠ t →
      Enhanced.checkForStaleUpdate (some h) now t =
        (some { lastUpdateText := t, firstSeenAt := now, lastSeenAt := now,
                updateCount := 1 }, none)) := by
  refine ⟨fun now t => rfl, fun h now t heq => ?_, fun h now t hne => ?_⟩
  · simp only [Enhanced.checkForStaleUpdate, heq, if_pos]
    split <;> rfl
  · simp [Enhanced.checkForStaleUpdate, hne]

/-- Witness for C2: a record first seen at 0 and repeated unchanged at
36h 6min 40s emits the stale issue for 36 hours without resetting
`firstSeenAt`. -/
theorem C2_witness :
    Enhanced.checkForStaleUpdate (some ⟨"In transit", 0, 0, 1⟩) 130000000 "In transit" =
      (some ⟨"In transit", 0, 130000000, 2⟩,
       some ⟨"showing stale tracking information", "medium",
             "Same update \"In transit\" for 36 hours", true, 36⟩) := by
  have h := C2_stale_tracker_transitions.2.1 ⟨"In transit", 0, 0, 1⟩ 130000000 "In transit" rfl
  rw [h]
  decide

/-- Claim C10: an absent (`null`/`undefined`) or empty update text makes the
ambiguous-status tracker of `src/index.js` delete any existing record and
return no issue — for every state and time, so also when the record's
timeout has long elapsed; the function is total, so it never throws. -/
theorem C10_empty_text_clears :
    ∀ (state : Option AmbiguousStatusRecord) (now : Int),
      MultiBoard.checkAmbiguousStatus state now none = (none, none) ∧
      MultiBoard.checkAmbiguousStatus state now (some "") = (none, none) := by
  intro state now
  have hfind : findAmbiguousIn MultiBoard.AMBIGUOUS_STATUSES (lowerChars "") = none := by
    decide
  constructor
  · show checkAmbiguousWith MultiBoard.AMBIGUOUS_STATUSES state now "" = (none, none)
    rw [checkAmbiguousWith, hfind]
  · show checkAmbiguousWith MultiBoard.AMBIGUOUS_STATUSES state now "" = (none, none)
    rw [checkAmbiguousWith, hfind]

/-- Counterexample for C3: an entity tracked for "exception" (12-hour
configured timeout, record created exactly as by a first call) still reports
"exception" 13 hours later — so by the claim the timeout issue should fire —
but because that later text also contains "processing" (iterated first in
the table, 24 hours) the code compares 13h against 24h and emits nothing,
keeping the record. -/
theorem C3_counterexample :
    MultiBoard.checkAmbiguousStatus none 0 (some "exception") =
      (some ⟨"exception", "exception", 0, 12⟩, none) ∧
    ((46800000 : Int) - 0 ≥ (12 : Int) * 60 * 60 * 1000) ∧
    containsSeq "exception".toList (lowerChars "processing exception") = true ∧
    MultiBoard.checkAmbiguousStatus (some ⟨"exception", "exception", 0, 12⟩)
        46800000 (some "processing exception") =
      (some ⟨"exception", "exception", 0, 12⟩, none) := by
  decide

/-- Claim C3 as amended: lifecycle of the ambiguous-status tracker of
`src/index.js`. A first update containing a known phrase creates a record
and emits nothing; an update containing no known phrase, or no longer
containing the recorded phrase, clears the record and emits nothing; an
update still containing the recorded phrase emits the high-severity timeout
issue — deleting the record, one-shot — if and only if elapsed time reaches
the timeout of the first table phrase found in the *current* text (which is
the record's timeout exactly when that phrase is the recorded one), and the
issue reason names that current phrase and the rounded elapsed hours. -/
theorem C3_amended_ambiguous_lifecycle :
    (∀ (now : Int) (text p : String) (hrs : Nat),
      findAmbiguousIn MultiBoard.AMBIGUOUS_STATUSES (lowerChars text) = some (p, hrs) →
      MultiBoard.checkAmbiguousStatus none now (some text) =
        (some ⟨p, text, now, hrs⟩, none)) ∧
    (∀ (r : AmbiguousStatusRecord) (now : Int) (text : String),
      findAmbiguousIn MultiBoard.AMBIGUOUS_STATUSES (lowerChars text) = none →
      MultiBoard.checkAmbiguousStatus (some r) now (some text) = (none, none)) ∧
    (∀ (r : AmbiguousStatusRecord) (now : Int) (text p : String) (hrs : Nat),
      findAmbiguousIn MultiBoard.AMBIGUOUS_STATUSES (lowerChars text) = some (p, hrs) →
      containsSeq r.status.toList (lowerChars text) = false →
      MultiBoard.checkAmbiguousStatus (some r) now (some text) = (none, none)) ∧
    (∀ (r : AmbiguousStatusRecord) (now : Int) (text p : String) (hrs : Nat),
      findAmbiguousIn MultiBoard.AMBIGUOUS_STATUSES (lowerChars text) = some (p, hrs) →
      containsSeq r.status.toList (lowerChars text) = true →
      now - r.firstSeenAt < (hrs : Int) * 60 * 60 * 1000 →
      MultiBoard.checkAmbiguousStatus (some r) now (some text) = (some r, none)) ∧
    (∀ (r : AmbiguousStatusRecord) (now : Int) (text p : String) (hrs : Nat),
      findAmbiguousIn MultiBoard.AMBIGUOUS_STATUSES (lowerChars text) = some (p, hrs) →
      containsSeq r.status.toList (lowerChars text) = true →
      (hrs : Int) * 60 * 60 * 1000 ≤ now - r.firstSeenAt →
      MultiBoard.checkAmbiguousStatus (some r) now (some text) =
        (none, some ⟨"experiencing delayed customs processing", "high",
          "Status \"" ++ p ++ "\" persisted for " ++
            toString (roundHours (now - r.firstSeenAt)) ++ " hours",
          true, roundHours (now - r.firstSeenAt)⟩)) := by
  refine ⟨fun now text p hrs hfind => ?_,
          fun r now text hfind => ?_,
          fun r now text p hrs hfind hcont => ?_,
          fun r now text p hrs hfind hcont hlt => ?_,
          fun r now text p hrs hfind hcont hge => ?_⟩
  · show checkAmbiguousWith _ _ _ _ = _
    rw [checkAmbiguousWith]
    simp [Option.getD_some, hfind]
  · show checkAmbiguousWith _ _ _ _ = _
    rw [checkAmbiguousWith]
    simp [Option.getD_some, hfind]
  · have hcont2 : containsSeq r.status.data (lowerChars text) = false := hcont
    show checkAmbiguousWith _ _ _ _ = _
    rw [checkAmbiguousWith]
    simp [Option.getD_some, hfind, hcont, hcont2]
  · have hcont2 : containsSeq r.status.data (lowerChars text) = true := hcont
    show checkAmbiguousWith _ _ _ _ = _
    rw [checkAmbiguousWith]
    simp [Option.getD_some, hfind, hcont, hcont2, not_le.mpr hlt]
  · have hcont2 : containsSeq r.status.data (lowerChars text) = true := hcont
    show checkAmbiguousWith _ _ _ _ = _
    rw [checkAmbiguousWith]
    simp [Option.getD_some, hfind, hcont, hcont2, hge]

/-- Witness for C3 (amended): "exception" tracked from 0, still "exception"
at 13h with the record's own 12h timeout governing (the current text's first
matched phrase is the recorded one) — fires once and clears. -/
theorem C3_witness :
    MultiBoard.checkAmbiguousStatus (some ⟨"exception", "exception", 0, 12⟩)
        46800000 (some "exception") =
      (none, some ⟨"experiencing delayed customs processing", "high",
        "Status \"exception\" persisted for 13 hours", true, 13⟩) := by
  have h := C3_amended_ambiguous_lifecycle.2.2.2.2
    ⟨"exception", "exception", 0, 12⟩ 46800000 "exception" "exception" 12
    (by decide) (by decide) (by decide)
  rw [h]
  decide

/-- Counterexample for C4: a record for "exception" stores its configured
12-hour timeout; a later text still containing "exception" at elapsed 14h
(past the stored timeout) emits nothing, while the same call at elapsed 24h
fires with the reason naming "processing" — the threshold actually compared
is the 24-hour timeout of "processing", the first table phrase contained in
the current text, not the record's stored timeout. -/
theorem C4_counterexample :
    (⟨"exception", "exception", 0, 12⟩ : AmbiguousStatusRecord).timeoutHours = 12 ∧
    ((50400000 : Int) - 0 ≥ (12 : Int) * 60 * 60 * 1000) ∧
    containsSeq "exception".toList (lowerChars "processing exception") = true ∧
    MultiBoard.checkAmbiguousStatus (some ⟨"exception", "exception", 0, 12⟩)
        50400000 (some "processing exception") =
      (some ⟨"exception", "exception", 0, 12⟩, none) ∧
    MultiBoard.checkAmbiguousStatus (some ⟨"exception", "exception", 0, 12⟩)
        86400000 (some "processing exception") =
      (none, some ⟨"experiencing delayed customs processing", "high",
        "Status \"processing\" persisted for 24 hours", true, 24⟩) := by
  decide

/-- Claim C4 as amended: for an entity with an existing record whose phrase
the current text still contains, the ambiguous-timeout issue is emitted if
and only if elapsed time reaches the timeout configured for the first table
phrase contained in the current text; this coincides with the record's
stored timeout when that first-matched phrase is the recorded one, but an
earlier-iterated phrase with a different timeout overrides it. -/
theorem C4_amended_threshold_source :
    ∀ (r : AmbiguousStatusRecord) (now : Int) (text p : String) (hrs : Nat),
      findAmbiguousIn MultiBoard.AMBIGUOUS_STATUSES (lowerChars text) = some (p, hrs) →
      containsSeq r.status.toList (lowerChars text) = true →
      (((MultiBoard.checkAmbiguousStatus (some r) now (some text)).2 ≠ none) ↔
        (hrs : Int) * 60 * 60 * 1000 ≤ now - r.firstSeenAt) := by
  intro r now text p hrs hfind hcont
  show ((checkAmbiguousWith _ _ _ _).2 ≠ none) ↔ _
  rw [checkAmbiguousWith]
  simp only [Option.getD_some, hfind, hcont, Bool.not_true, Bool.false_eq_true, if_false]
  split
  next hge => simp [hge]
  next hlt => simp [hlt]

/-- Witness for C4 (amended): with the record for "exception" and current
text "processing exception" at elapsed 24h, the issue fires — the governing
threshold being that of "processing". -/
theorem C4_witness :
    (MultiBoard.checkAmbiguousStatus (some ⟨"exception", "exception", 0, 12⟩)
        86400000 (some "processing exception")).2 ≠ none :=
  (C4_amended_threshold_source ⟨"exception", "exception", 0, 12⟩ 86400000
      "processing exception" "processing" 24 (by decide) (by decide)).mpr (by decide)

/-- Claim C5: in the `src/unnamed/part_002` variant, "on hold" is an
ambiguous status with a 6-hour timeout: first seen at 0 it starts tracking
silently; any repeat strictly before 6h emits nothing and keeps the record;
the repeat at 7h emits exactly one high-severity timeout issue and clears
the record (so only a fresh observation restarts tracking); an entity
reporting "customs clearance" is governed independently by its own 18-hour
threshold. -/
theorem C5_on_hold_six_hour_timeout :
    (Variant2.checkAmbiguousStatus none 0 "on hold" =
      (some ⟨"on hold", "on hold", 0, 6⟩, none)) ∧
    (∀ t : Int, 0 ≤ t → t < 6 * 60 * 60 * 1000 →
      Variant2.checkAmbiguousStatus (some ⟨"on hold", "on hold", 0, 6⟩) t "on hold" =
        (some ⟨"on hold", "on hold", 0, 6⟩, none)) ∧
    (Variant2.checkAmbiguousStatus (some ⟨"on hold", "on hold", 0, 6⟩) 25200000 "on hold" =
      (none, some ⟨"experiencing delayed customs processing", "high",
        "Status \"on hold\" persisted for 7 hours", true, 7⟩)) ∧
    (Variant2.checkAmbiguousStatus none 0 "customs clearance" =
      (some ⟨"customs clearance", "customs clearance", 0, 18⟩, none)) ∧
    (∀ t : Int, 0 ≤ t → t < 18 * 60 * 60 * 1000 →
      Variant2.checkAmbiguousStatus
          (some ⟨"customs clearance", "customs clearance", 0, 18⟩) t "customs clearance" =
        (some ⟨"customs clearance", "customs clearance", 0, 18⟩, none)) ∧
    (Variant2.checkAmbiguousStatus
        (some ⟨"customs clearance", "customs clearance", 0, 18⟩) 64800000 "customs clearance" =
      (none, some ⟨"experiencing delayed customs processing", "high",
        "Status \"customs clearance\" persisted for 18 hours", true, 18⟩)) := by
  refine ⟨by decide, fun t ht0 ht6 => ?_, by decide, by decide, fun t ht0 ht18 => ?_, by decide⟩
  · have hfind : findAmbiguousIn Variant2.AMBIGUOUS_STATUSES (lowerChars "on hold") =
        some ("on hold", 6) := by decide
    have hcont : containsSeq ("on hold").data (lowerChars "on hold") = true := by decide
    show checkAmbiguousWith _ _ _ _ = _
    rw [checkAmbiguousWith]
    simp [hfind, hcont]
    omega
  · have hfind : findAmbiguousIn Variant2.AMBIGUOUS_STATUSES (lowerChars "customs clearance") =
        some ("customs clearance", 18) := by decide
    have hcont : containsSeq ("customs clearance").data (lowerChars "customs clearance") = true := by
      decide
    show checkAmbiguousWith _ _ _ _ = _
    rw [checkAmbiguousWith]
    simp [hfind, hcont]
    omega

/-- Witness for C5: a repeat of "on hold" one hour after first sighting
emits nothing and keeps the record. -/
theorem C5_witness :
    Variant2.checkAmbiguousStatus (some ⟨"on hold", "on hold", 0, 6⟩) 3600000 "on hold" =
      (some ⟨"on hold", "on hold", 0, 6⟩, none) :=
  C5_on_hold_six_hour_timeout.2.1 3600000 (by decide) (by decide)

/-- Claim C6: duplicate suppression for the key built from (entity id,
update text, issue kind). A key already recorded within the five-minute
window is suppressed; from a state holding no record for the key, the first
trigger is dispatched, an identical trigger strictly less than five minutes
later is suppressed (exactly one dispatch), and an identical trigger six
minutes later is dispatched again (the first record having been evicted). -/
theorem C6_duplicate_suppression :
    (∀ (s : List (String × Int)) (now : Int) (itemId u k : String) (ts : Int),
      (Enhanced.mkAlertKey itemId u k, ts) ∈ s →
      now - Enhanced.suppressionWindowMs ≤ ts →
      (Enhanced.isDuplicateAlert s now (Enhanced.mkAlertKey itemId u k)).2 = true) ∧
    (∀ (s : List (String × Int)) (t0 t1 : Int) (itemId u k : String),
      (∀ kv ∈ s, kv.1 ≠ Enhanced.mkAlertKey itemId u k) →
      (Enhanced.isDuplicateAlert s t0 (Enhanced.mkAlertKey itemId u k)).2 = false ∧
      (t1 - t0 < Enhanced.suppressionWindowMs →
        (Enhanced.isDuplicateAlert
          (Enhanced.isDuplicateAlert s t0 (Enhanced.mkAlertKey itemId u k)).1 t1
          (Enhanced.mkAlertKey itemId u k)).2 = true) ∧
      (t1 - t0 = 360000 →
        (Enhanced.isDuplicateAlert
          (Enhanced.isDuplicateAlert s t0 (Enhanced.mkAlertKey itemId u k)).1 t1
          (Enhanced.mkAlertKey itemId u k)).2 = false)) := by
  constructor
  · intro s now itemId u k ts hmem hwin
    set key := Enhanced.mkAlertKey itemId u k
    rw [Enhanced.isDuplicateAlert]
    rw [if_pos]
    · rw [List.any_eq_true]
      refine ⟨(key, ts), List.mem_filter.mpr ⟨hmem, ?_⟩, by simp⟩
      simp only [Bool.not_eq_true', decide_eq_false_iff_not, not_lt]
      omega
  · intro s t0 t1 itemId u k hnone
    set key := Enhanced.mkAlertKey itemId u k with hkey
    have hanyfalse : ∀ (l : List (String × Int)), (∀ kv ∈ l, kv.1 ≠ key) →
        (l.any (fun kv => kv.1 == key)) = false := by
      intro l hl
      rw [List.any_eq_false]
      intro kv hkv
      simp [hl kv hkv]
    have hstep1 : Enhanced.isDuplicateAlert s t0 key =
        ((s.filter (fun kv => !(decide (kv.2 < t0 - Enhanced.suppressionWindowMs)))) ++
          [(key, t0)], false) := by
      rw [Enhanced.isDuplicateAlert, if_neg]
      rw [Bool.not_eq_true]
      exact hanyfalse _ (fun kv hkv => hnone kv (List.mem_of_mem_filter hkv))
    refine ⟨by rw [hstep1], fun hlt => ?_, fun heq => ?_⟩
    · rw [hstep1]
      rw [Enhanced.isDuplicateAlert]
      rw [if_pos]
      rw [List.any_eq_true]
      refine ⟨(key, t0), List.mem_filter.mpr ⟨List.mem_append_right _ (by simp), ?_⟩, by simp⟩
      simp only [Bool.not_eq_true', decide_eq_false_iff_not, not_lt]
      omega
    · rw [hstep1]
      rw [Enhanced.isDuplicateAlert]
      rw [if_neg]
      rw [Bool.not_eq_true]
      rw [List.filter_append, List.any_append]
      have h1 : ((s.filter (fun kv => !(decide (kv.2 < t0 - Enhanced.suppressionWindowMs)))).filter
          (fun kv => !(decide (kv.2 < t1 - Enhanced.suppressionWindowMs)))).any
          (fun kv => kv.1 == key) = false := by
        apply hanyfalse
        intro kv hkv
        exact hnone kv (List.mem_of_mem_filter (List.mem_of_mem_filter hkv))
      have h2 : ([(key, t0)].filter
          (fun kv => !(decide (kv.2 < t1 - Enhanced.suppressionWindowMs)))).any
          (fun kv => kv.1 == key) = false := by
        have : decide (t0 < t1 - Enhanced.suppressionWindowMs) = true := by
          simp only [decide_eq_true_iff]
          simp only [Enhanced.suppressionWindowMs]
          omega
        simp [List.filter, this]
      rw [h1, h2]
      rfl

/-- Witness for C6: from an empty suppression table, the first alert for a
key goes out, a repeat 100 seconds later is suppressed, and after the state
is rebuilt from scratch a repeat 6 minutes later goes out. -/
theorem C6_witness :
    (Enhanced.isDuplicateAlert [] 0 (Enhanced.mkAlertKey "42" "on hold" "held in customs")).2
        = false ∧
    (Enhanced.isDuplicateAlert
      (Enhanced.isDuplicateAlert [] 0 (Enhanced.mkAlertKey "42" "on hold" "held in customs")).1
      100000 (Enhanced.mkAlertKey "42" "on hold" "held in customs")).2 = true ∧
    (Enhanced.isDuplicateAlert
      (Enhanced.isDuplicateAlert [] 0 (Enhanced.mkAlertKey "42" "on hold" "held in customs")).1
      360000 (Enhanced.mkAlertKey "42" "on hold" "held in customs")).2 = false := by
  have h1 := C6_duplicate_suppression.2 [] 0 100000 "42" "on hold" "held in customs" (by simp)
  have h2 := C6_duplicate_suppression.2 [] 0 360000 "42" "on hold" "held in customs" (by simp)
  exact ⟨h1.1, h1.2.1 (by decide), h2.2.2 (by decide)⟩

/-- Counterexample for C7: the priority chain compares the column result
against the sentinel string, not against emptiness — a "latest_location"
column holding the non-empty value "Unknown Location" loses to the
AI-extracted location, so the resolved location does not equal the
non-empty structured field's value. -/
theorem C7_counterexample :
    Enhanced.lookupColumn [("latest_location", "Unknown Location")] "latest_location" =
      "Unknown Location" ∧
    ("Unknown Location" : String) ≠ "" ∧
    Enhanced.resolveLocation [("latest_location", "Unknown Location")]
      (some "Paris - France") "" = "Paris - France" ∧
    ("Paris - France" : String) ≠ "Unknown Location" := by
  decide

/-- Claim C7 as amended: whenever the designated "latest_location" column is
non-empty and not itself the sentinel string "Unknown Location", the
resolved location equals that column's value, regardless of the
AI-extracted location or the update text; and when the columns resolve to
the sentinel, no truthy extracted location exists and nothing is extractable
from the update text, the resolver returns "Unknown Location". -/
theorem C7_amended_location_priority :
    (∀ (cm : List (String × String)) (extracted : Option String)
        (utext v : String),
      Enhanced.lookupColumn cm "latest_location" = v → v ≠ "" →
      v ≠ "Unknown Location" →
      Enhanced.resolveLocation cm extracted utext = v) ∧
    (∀ (cm : List (String × String)) (extracted : Option String) (utext : String),
      Enhanced.getLocationFromColumns cm = "Unknown Location" →
      extracted.getD "" = "" →
      Enhanced.extractLocationFromUpdate utext = none →
      Enhanced.resolveLocation cm extracted utext = "Unknown Location") := by
  constructor
  · intro cm extracted utext v hlook hne hnun
    have hexact : Enhanced.findExactSource cm ["latest_location", "latest_loc"] = some v := by
      simp [Enhanced.findExactSource, hlook, hne]
    have hcols : Enhanced.getLocationFromColumns cm = v := by
      rw [Enhanced.getLocationFromColumns]
      simp [Enhanced.locationSources, hexact]
    rw [Enhanced.resolveLocation]
    simp [hcols, hnun]
  · intro cm extracted utext hcols hext hupd
    rw [Enhanced.resolveLocation]
    simp [hcols, hext, hupd]

/-- Witness for C7 (amended): a proper column value beats a differing
AI-extracted location; and with no sources at all the sentinel comes back. -/
theorem C7_witness :
    Enhanced.resolveLocation [("latest_location", "Paris - France")]
      (some "Berlin - Germany") "at STANSTED" = "Paris - France" ∧
    Enhanced.resolveLocation [] none "" = "Unknown Location" :=
  ⟨C7_amended_location_priority.1 _ (some "Berlin - Germany") "at STANSTED"
      "Paris - France" rfl (by decide) (by decide),
   C7_amended_location_priority.2 [] none "" (by decide) (by decide) (by decide)⟩

/-- Claim C8 as amended: the model-assisted classifier falls back to the
deterministic rule cascade exactly when the service is unconfigured, the
call throws, or the reply fails JSON parsing; a reply that parses as JSON
but lacks the expected fields is consumed as-is under JS truthiness
(missing `hasIssue` reads as no issue) instead of falling back. -/
theorem C8_amended_gemini_fallback :
    (∀ (callResult : Option String) (parse : String → Option Enhanced.GeminiAnalysis)
        (t : String),
      Enhanced.analyzeWithGemini false callResult parse t = Enhanced.detectIssueBasic t) ∧
    (∀ (parse : String → Option Enhanced.GeminiAnalysis) (t : String),
      Enhanced.analyzeWithGemini true none parse t = Enhanced.detectIssueBasic t) ∧
    (∀ (raw : String) (parse : String → Option Enhanced.GeminiAnalysis) (t : String),
      parse (jsTrimS raw) = none →
      Enhanced.analyzeWithGemini true (some raw) parse t = Enhanced.detectIssueBasic t) := by
  refine ⟨fun c p t => rfl, fun p t => rfl, fun raw p t hp => ?_⟩
  rw [Enhanced.analyzeWithGemini]
  simp [hp]

/-- Counterexample for C8: the reply "\x7b\x7d" (an empty JSON object) is
valid JSON but not of the expected shape; `JSON.parse` succeeds, the missing
`hasIssue` reads as falsy, and the classifier returns no issue — not the
rule-cascade result, which flags a UPS customs issue for the same text. -/
theorem C8_counterexample :
    Enhanced.analyzeWithGemini true (some "\x7b\x7d")
        (fun _ => some ⟨false, false, none, "", "", none, "", ""⟩)
        "ups held by customs" = none ∧
    Enhanced.detectIssueBasic "ups held by customs" =
      some ⟨"held in customs", "high", "UPS customs clearance issue detected",
        "UPS", none, none⟩ ∧
    (none : Option Issue) ≠
      some ⟨"held in customs", "high", "UPS customs clearance issue detected",
        "UPS", none, none⟩ := by
  refine ⟨rfl, by decide, by decide⟩

/-- Witness for C8 (amended): a throwing parse (unparseable reply) falls
back to the rule cascade on a customs text. -/
theorem C8_witness :
    Enhanced.analyzeWithGemini true (some "service unavailable") (fun _ => none)
        "ups held by customs" = Enhanced.detectIssueBasic "ups held by customs" :=
  C8_amended_gemini_fallback.2.2 "service unavailable" (fun _ => none)
    "ups held by customs" rfl

/-- Claim C9: tracking-token normalization is idempotent —
`extractTrackingNumber` applied to its own output returns that output
unchanged (a bare extracted token feeds back through the plain-token
branch), and consequently `normalizeCustomerTracking` on an
already-normalized field value performs no write. -/
theorem C9_tracking_normalization_idempotent :
    (∀ raw : String,
      MultiBoard.extractTrackingNumber (MultiBoard.extractTrackingNumber raw) =
        MultiBoard.extractTrackingNumber raw) ∧
    (∀ (col : Option String) (x : String),
      MultiBoard.normalizeCustomerTracking col (MultiBoard.extractTrackingNumber x) = none) := by
  refine ⟨extractTrackingNumber_idem, fun col x => ?_⟩
  cases col with
  | none => rfl
  | some c =>
    rw [MultiBoard.normalizeCustomerTracking]
    by_cases h0 : MultiBoard.extractTrackingNumber x = ""
    · simp [h0]
    · rw [if_neg h0]
      simp [extractTrackingNumber_idem x]
